import Mathlib

set_option maxRecDepth 200000

/-!
Shallow embedding of the gas-estimator core of `lazovicff/gas-estimator`.

The embedded code is `src/estimators/evm_based.rs` (the `GasEstimator` used
through the claims: `estimate_gas`, `calculate_gas_breakdown`, `is_contract`),
the calldata/creation cost helpers of `src/utils.rs`, and the execution
inspector `Tracer` of `src/tracer.rs`.

Modelling conventions:
* `Address`, `Slot`, byte and gas values are `Nat`. An address is the
  big-endian value of its 20 bytes, so "upper 19 bytes zero and last byte in
  1..=9" is exactly `1 ≤ a ∧ a ≤ 9`. Gas arithmetic is u128 in the source;
  the values reachable by the claims are far below `2 ^ 128`, so no wrapping
  is modelled.
* The remote JSON-RPC provider and the revm interpreter are external
  collaborators; they enter the embedding as explicit oracles (`Provider`,
  `Evm`). The Rust `?` propagation of their errors is `EstError.propagated`;
  a Rust panic (`assert!`, `.unwrap()` on an `Err`) is `EstError.panicked`,
  so a reported error and a crash stay distinguishable.
* `HashSet` / `HashMap` state of the `Tracer` and the `CacheDB` is modelled
  by insertion-ordered association lists with replace-on-existing-key
  insertion, matching `HashMap::insert` / `HashSet::insert` / `extend`.
* `AccountInfo.code_hash` (keccak of the code) is not modelled: keccak256 is
  opaque to the claims, none of which mention the hash.
-/

namespace GasEst

abbrev Address := Nat
abbrev Slot := Nat
abbrev Byte := Nat
abbrev Bytes := List Byte

/-- The value of an `Except`, or a default when it is an error
(Rust `unwrap_or` / `unwrap_or_default` / `unwrap_or_else`). -/
def exceptGetD {ε α : Type} (e : Except ε α) (d : α) : α :=
  match e with
  | .ok a => a
  | .error _ => d

/-- Association-list lookup by key: first binding wins
(each map below keeps at most one binding per key). -/
def lookupKey {κ α : Type} [DecidableEq κ] : List (κ × α) → κ → Option α
  | [], _ => none
  | p :: rest, k => if p.1 = k then some p.2 else lookupKey rest k

/-- `HashMap::insert`: replace the binding of an existing key, else append. -/
def insertKV {κ α : Type} [DecidableEq κ] : List (κ × α) → κ → α → List (κ × α)
  | [], k, v => [(k, v)]
  | p :: rest, k, v => if p.1 = k then (k, v) :: rest else p :: insertKV rest k v

/-- `HashSet::insert`: append if not already present. -/
def insertElem {α : Type} [DecidableEq α] (s : List α) (a : α) : List α :=
  if a ∈ s then s else s ++ [a]

/-- `HashMap::contains_key`. -/
def hmapContainsKey {κ α : Type} [DecidableEq κ] (m : List (κ × α)) (k : κ) : Bool :=
  (lookupKey m k).isSome

/-- `dst.extend(src.iter())` on maps: every binding of `src` is inserted into
`dst`, overwriting bindings of shared keys. -/
def hmapExtend {κ α : Type} [DecidableEq κ] (dst src : List (κ × α)) : List (κ × α) :=
  src.foldl (fun d p => insertKV d p.1 p.2) dst

/-- `dst.extend(src.iter())` on sets. -/
def hsetExtend {α : Type} [DecidableEq α] (dst src : List α) : List α :=
  src.foldl insertElem dst

/-! ## Data model (`src/estimators/mod.rs`, `src/estimators/evm_based.rs`) -/

/-- One EIP-2930 access-list item: an address with its storage keys. -/
abbrev AccessListItem := Address × List Slot

/-- The input transaction `Tx` of `src/estimators/mod.rs`. The Rust fields
`from` and `to` are `fromAddr` and `toAddr` here (`from` and `to` are Lean
tokens); every other field keeps its source name. -/
structure Tx where
  fromAddr : Option Address
  toAddr : Option Address
  value : Nat
  data : Option Bytes
  nonce : Option Nat
  chain_id : Option Nat
  gas_limit : Option Nat
  gas_price : Option Nat
  max_fee_per_gas : Option Nat
  max_priority_fee_per_gas : Option Nat
  access_list : Option (List AccessListItem)
  transaction_type : Option Nat
deriving DecidableEq, Repr

structure GasBreakdown where
  base_cost : Nat
  data_cost : Nat
  contract_creation_cost : Nat
  execution_cost : Nat
deriving DecidableEq, Repr

structure GasEstimate where
  estimated_gas : Nat
  gas_price : Nat
  total_cost_wei : Nat
  breakdown : GasBreakdown
deriving DecidableEq, Repr

/-- A transport- or protocol-level failure of the remote node
(`src/error.rs`: `TransportError` / `RpcError`). -/
inductive RpcFailure where
  | transport
  | rpc
deriving DecidableEq, Repr

/-- How an `estimate_gas` request can fail: a remote error surfaced with `?`,
or a Rust panic (`assert!` / `.unwrap()` on an `Err`). -/
inductive EstError where
  | propagated (e : RpcFailure)
  | panicked
deriving DecidableEq, Repr

/-- The remote JSON-RPC endpoint, as the oracle of responses the estimator
consumes (alloy `Provider` calls used by `evm_based.rs`). -/
structure Provider where
  getGasPrice : Except RpcFailure Nat
  getBalance : Address → Except RpcFailure Nat
  getTransactionCount : Address → Except RpcFailure Nat
  getCodeAt : Address → Except RpcFailure Bytes
  getStorageAt : Address → Slot → Except RpcFailure Slot

/-- revm `AccountInfo` (`code_hash` omitted, see the header comment). -/
structure AccountInfo where
  balance : Nat
  nonce : Nat
  code : Option Bytes
deriving DecidableEq, Repr

/-- revm `CacheDB`: inserted accounts plus inserted storage slots. -/
structure CacheDB where
  accounts : List (Address × AccountInfo)
  storage : List ((Address × Slot) × Slot)
deriving DecidableEq, Repr

def insert_account_info (db : CacheDB) (a : Address) (info : AccountInfo) : CacheDB :=
  { db with accounts := insertKV db.accounts a info }

def insert_account_storage (db : CacheDB) (a : Address) (slot v : Slot) : CacheDB :=
  { db with storage := insertKV db.storage (a, slot) v }

/-- The revm transaction environment built by `calculate_gas_breakdown`
(`TxEnvBuilder`, evm_based.rs lines 144-159). `kind` is always
`TxKind::Call`, so only the callee address is kept. -/
structure TxEnv where
  caller : Address
  kindCallTo : Address
  data : Bytes
  value : Nat
  gasPrice : Nat
  gasLimit : Nat
  nonce : Nat
  accessList : List AccessListItem
deriving DecidableEq, Repr

structure ExecResult where
  gasUsed : Nat
deriving DecidableEq, Repr

/-- A revm transition error (e.g. balance underflow). -/
inductive EvmError where
  | transitionError
deriving DecidableEq, Repr

/-- The revm interpreter as an oracle: `evm.transact_finalize` over a given
cache DB and transaction environment. -/
abbrev Evm := CacheDB → TxEnv → Except EvmError ExecResult

def BLOCK_GAS_LIMIT : Nat := 30000000

/-! ## `src/utils.rs` helpers -/

/-- `calculate_calldata_cost`: 4 gas per zero byte, 16 per non-zero byte. -/
def calculate_calldata_cost (data : Bytes) : Nat :=
  data.foldl (fun cost byte => if byte = 0 then cost + 4 else cost + 16) 0

/-- `calculate_contract_creation_cost`: `32_000 + 200·len`, 0 without data. -/
def calculate_contract_creation_cost (data : Option Bytes) : Nat :=
  match data with
  | some bytecode => 32000 + bytecode.length * 200
  | none => 0

/-! ## `src/estimators/evm_based.rs` -/

/-- `GasEstimator::is_contract`: `to` has non-empty deployed code. -/
def is_contract (P : Provider) (to? : Option Address) : Except RpcFailure Bool :=
  match to? with
  | none => .ok false
  | some a => (P.getCodeAt a).map (fun code => !code.isEmpty)

/-- The caller balance seeded into the DB: the fetched balance, with the
documented fallback of 1000 ETH when the fetch fails (lines 98-101). -/
def callerBalance (P : Provider) (caller : Address) : Nat :=
  exceptGetD (P.getBalance caller) (10 ^ 18 * 1000)

/-- The fetched transaction count, defaulting to 0 when the fetch fails
(line 102). -/
def fetchedNonce (P : Provider) (caller : Address) : Nat :=
  exceptGetD (P.getTransactionCount caller) 0

/-- The `AccountInfo` inserted for the caller (lines 104-112): fetched
balance (with fallback), `tx.nonce` when supplied else the fetched count,
no code. -/
def mkCallerInfo (P : Provider) (tx : Tx) (caller : Address) : AccountInfo :=
  { balance := callerBalance P caller
    nonce := tx.nonce.getD (fetchedNonce P caller)
    code := none }

/-- The two account insertions of the pre-seeding phase: the caller account
and the callee account holding the fetched code (lines 104-129). -/
def seedAccounts (P : Provider) (tx : Tx) (caller contract_address : Address)
    (contract_code : Bytes) : CacheDB :=
  insert_account_info
    (insert_account_info ⟨[], []⟩ caller (mkCallerInfo P tx caller))
    contract_address
    { balance := 0, nonce := 0, code := some contract_code }

/-- The storage pre-fetch loop (lines 133-141): slots `0..256` of the callee
are fetched and inserted; `.unwrap()` on a failed fetch is a panic. -/
def initStorage (P : Provider) (addr : Address) (db : CacheDB) :
    Except EstError CacheDB :=
  (List.range 256).foldlM
    (fun acc i =>
      match P.getStorageAt addr i with
      | .ok v => .ok (insert_account_storage acc addr i v)
      | .error _ => .error EstError.panicked)
    db

/-- The transaction environment of lines 144-159. -/
def mkTxEnv (caller contract_address : Address) (calldata : Bytes) (tx : Tx)
    (current_gas_price : Nat) : TxEnv :=
  { caller := caller
    kindCallTo := contract_address
    data := calldata
    value := tx.value
    gasPrice := tx.gas_price.getD current_gas_price
    gasLimit := tx.gas_limit.getD BLOCK_GAS_LIMIT
    nonce := tx.nonce.getD 1
    accessList := tx.access_list.getD [] }

/-- The `execution_cost` branch of `calculate_gas_breakdown`
(lines 93-175): when `to` and `data` are both present, seed the DB
(caller account, callee code — `assert!`-ing it non-empty — and storage
slots 0..256), run the EVM once, and return `gas_used + 2_300` on success or
the default `30_000` on a transition error; otherwise 0. -/
def execution_cost_of (P : Provider) (E : Evm) (tx : Tx)
    (current_gas_price : Nat) : Except EstError Nat :=
  match tx.toAddr, tx.data with
  | some contract_address, some calldata =>
    match tx.fromAddr with
    | none => .error EstError.panicked
    | some caller =>
      let contract_code := exceptGetD (P.getCodeAt contract_address) []
      if contract_code.isEmpty then .error EstError.panicked
      else
        match initStorage P contract_address
            (seedAccounts P tx caller contract_address contract_code) with
        | .error e => .error e
        | .ok db =>
          match E db (mkTxEnv caller contract_address calldata tx current_gas_price) with
          | .ok result => .ok (result.gasUsed + 2300)
          | .error _ => .ok 30000
  | _, _ => .ok 0

/-- The `data_cost` branch (lines 177-183): the calldata cost when data is
present and `is_contract(to)` — whose `.unwrap()` panics on a remote
error — answers true; otherwise 0. -/
def data_cost_of (P : Provider) (tx : Tx) : Except EstError Nat :=
  match tx.data with
  | none => .ok 0
  | some d =>
    match is_contract P tx.toAddr with
    | .error _ => .error EstError.panicked
    | .ok b => .ok (if b then calculate_calldata_cost d else 0)

/-- `GasEstimator::calculate_gas_breakdown` (lines 84-198). -/
def calculate_gas_breakdown (P : Provider) (E : Evm) (tx : Tx) :
    Except EstError GasBreakdown :=
  match P.getGasPrice with
  | .error e => .error (EstError.propagated e)
  | .ok current_gas_price =>
    match execution_cost_of P E tx current_gas_price with
    | .error e => .error e
    | .ok execution_cost =>
      match data_cost_of P tx with
      | .error e => .error e
      | .ok data_cost =>
        let contract_creation_cost :=
          if tx.toAddr.isNone then calculate_contract_creation_cost tx.data else 0
        .ok { base_cost := 21000
              data_cost := data_cost
              contract_creation_cost := contract_creation_cost
              execution_cost := execution_cost }

/-- `GasEstimator::estimate_gas` (lines 56-81): sum the breakdown
(base + creation + execution), fetch the current gas price, and price the
total with the transaction's own gas price when it has one. -/
def estimate_gas (P : Provider) (E : Evm) (tx : Tx) :
    Except EstError GasEstimate :=
  match calculate_gas_breakdown P E tx with
  | .error e => .error e
  | .ok breakdown =>
    let estimated_gas :=
      breakdown.base_cost + breakdown.contract_creation_cost + breakdown.execution_cost
    match P.getGasPrice with
    | .error e => .error (EstError.propagated e)
    | .ok gas_price =>
      .ok { estimated_gas := estimated_gas
            gas_price := gas_price
            total_cost_wei := estimated_gas * tx.gas_price.getD gas_price
            breakdown := breakdown }

/-- Modelled from the spec: the precompile address predicate of §4.3/§6.4
("last byte of address ∈ {1..=9} and upper 19 bytes zero"); `evm_based.rs`
itself performs no precompile check. -/
def is_precompile (a : Address) : Bool :=
  decide (1 ≤ a) && decide (a ≤ 9)

/-! ## `src/tracer.rs`: the access inspector -/

/-- The EVM opcode read by `Tracer::step` when it records a storage access. -/
def SLOAD : Nat := 0x54

/-- The `Tracer` inspector state. `contract_addresses` is a `HashSet`;
`storage_accesses` and `storage_access_archive` are `HashMap<Address, U256>`
— maps keyed by address holding a single slot per address. -/
structure Tracer where
  contract_addresses : List Address
  storage_accesses : List (Address × Slot)
  address_stack : List Address
  storage_access_archive : List (Address × Slot)
  contract_addresses_archive : List Address
deriving DecidableEq, Repr

namespace Tracer

def new : Tracer :=
  { contract_addresses := []
    storage_accesses := []
    address_stack := []
    storage_access_archive := []
    contract_addresses_archive := [] }

/-- `Tracer::has_new_accesses`. -/
def has_new_accesses (t : Tracer) : Bool :=
  decide (t.contract_addresses.length > 0) || decide (t.storage_accesses.length > 0)

/-- `Tracer::reset_state`: fold `current` into the archives, then clear it. -/
def reset_state (t : Tracer) : Tracer :=
  { t with
    storage_access_archive := hmapExtend t.storage_access_archive t.storage_accesses
    contract_addresses_archive := hsetExtend t.contract_addresses_archive t.contract_addresses
    storage_accesses := []
    contract_addresses := [] }

/-- `Inspector::call` (tracer.rs lines 63-72): record the target address if
it is not archived, and push it onto the address stack. -/
def call (t : Tracer) (target_address : Address) : Tracer :=
  let t :=
    if target_address ∈ t.contract_addresses_archive then t
    else { t with contract_addresses := insertElem t.contract_addresses target_address }
  { t with address_stack := t.address_stack ++ [target_address] }

/-- `Inspector::call_end`: pop the address stack. -/
def call_end (t : Tracer) : Tracer :=
  { t with address_stack := t.address_stack.dropLast }

/-- `Inspector::step` (tracer.rs lines 81-101). On `SLOAD`, peek the slot at
the top of the interpreter stack, attribute it to the last (top) entry of the
address stack, and insert the `address ↦ slot` binding into
`storage_accesses` when the archive map has no binding for that address.
The `CALL`-family arm of the source only prints the peeked call target, so it
leaves the tracer state unchanged here (its `stack.peek(1).unwrap()` panic on
a too-shallow stack is not modelled; no claim concerns that arm). -/
def step (t : Tracer) (opcode : Nat) (stack : List Slot) : Tracer :=
  if opcode = SLOAD then
    match stack.head? with
    | some slot =>
      match t.address_stack.getLast? with
      | some address =>
        if hmapContainsKey t.storage_access_archive address then t
        else { t with storage_accesses := insertKV t.storage_accesses address slot }
      | none => t
    | none => t
  else t

end Tracer

/-! ## The fixpoint driver of spec §4.4, for the refinement comparison -/

/-- One EVM pass as the spec's loop sees it: whether the transition
succeeded, its gas, and the new accesses the inspector reports. -/
structure SpecRun where
  ok : Bool
  gas : Nat
  newContracts : List Address
  newStorage : List (Address × Slot)

/-- The behaviour of one inspected EVM pass as a function of what has been
hydrated so far. -/
abbrev SpecOracle := List Address → List (Address × Slot) → SpecRun

/-- Modelled from the spec: the §4.4 fixpoint-loop pseudocode, which is
absent from `src/estimators/evm_based.rs`. Each pass yields `gas_used` (or
the default `30_000` on an EVM failure); if the inspector reports no new
accesses the loop returns that `last_gas`, otherwise the new contracts and
slots are hydrated and the transaction re-runs. The fuel bounds the
iteration count (spec invariant I3); `none` means the fuel ran out. -/
def spec_fixpoint_loop (O : SpecOracle) :
    Nat → List Address → List (Address × Slot) → Option Nat
  | 0, _, _ => none
  | Nat.succ fuel, hc, hs =>
    let r := O hc hs
    let last_gas := if r.ok then r.gas else 30000
    if r.newContracts.isEmpty && r.newStorage.isEmpty then some last_gas
    else spec_fixpoint_loop O fuel (hc ++ r.newContracts) (hs ++ r.newStorage)

/-! ## Concrete oracles and transactions used by the witnesses below -/

/-- A healthy remote node: gas price 7, every balance 50, every transaction
count 3, one byte of code (`0x01`) at every address, every storage slot 0. -/
def P0 : Provider :=
  { getGasPrice := .ok 7
    getBalance := fun _ => .ok 50
    getTransactionCount := fun _ => .ok 3
    getCodeAt := fun _ => .ok [1]
    getStorageAt := fun _ _ => .ok 0 }

/-- An EVM whose every transaction uses 100 gas. -/
def E0 : Evm := fun _ _ => .ok { gasUsed := 100 }

/-- A contract call: caller 10, callee 20, one non-zero calldata byte. -/
def tx0 : Tx :=
  { fromAddr := some 10
    toAddr := some 20
    value := 0
    data := some [1]
    nonce := some 5
    chain_id := some 1
    gas_limit := some 21000
    gas_price := some 20
    max_fee_per_gas := none
    max_priority_fee_per_gas := none
    access_list := none
    transaction_type := none }

/-- The EVM pass oracle matching `E0` for the spec-§4.4 comparison: the run
succeeds on 100 gas and the inspector reports no new accesses. -/
def O0 : SpecOracle := fun _ _ =>
  { ok := true, gas := 100, newContracts := [], newStorage := [] }

/-- An EVM echoing the transaction environment's nonce as its gas figure, to
observe which nonce the driver actually places in the environment. -/
def E1 : Evm := fun _ env => .ok { gasUsed := env.nonce }

/-- An EVM echoing the environment's gas price as its gas figure: revm's
outcome genuinely depends on `TxEnv.gas_price` (e.g. the up-front
balance ≥ gas_limit·gas_price check), modelled abstractly here. -/
def E2 : Evm := fun _ env => .ok { gasUsed := env.gasPrice }

/-- `tx0` without its own nonce. -/
def txN : Tx := { tx0 with nonce := none }

/-- `tx0` with chain id 31337 (the devnet id of the claim about base cost). -/
def tx31337 : Tx := { tx0 with chain_id := some 31337 }

/-- `tx0` with a different supplied gas price (40 instead of 20). -/
def txB : Tx := { tx0 with gas_price := some 40 }

/-- A node answering every `eth_getCode` query with empty bytecode. -/
def Pempty : Provider := { P0 with getCodeAt := fun _ => .ok [] }

/-- The cache DB after the pre-seeding phase of `calculate_gas_breakdown`
for `P0` and `tx0`: both accounts plus the 256 pre-fetched storage slots. -/
def db256 : CacheDB :=
  exceptGetD (initStorage P0 20 (seedAccounts P0 tx0 10 20 [1])) ⟨[], []⟩

/-! ## Helper lemmas -/

theorem lookupKey_insertKV_self {κ α : Type} [DecidableEq κ]
    (m : List (κ × α)) (k : κ) (v : α) :
    lookupKey (insertKV m k v) k = some v := by
  induction m with
  | nil => simp [insertKV, lookupKey]
  | cons p rest ih =>
    by_cases h : p.1 = k
    · simp [insertKV, h, lookupKey]
    · simp [insertKV, h, lookupKey, ih]

theorem lookupKey_insertKV_ne {κ α : Type} [DecidableEq κ]
    (m : List (κ × α)) (k a : κ) (v : α) (h : a ≠ k) :
    lookupKey (insertKV m k v) a = lookupKey m a := by
  induction m with
  | nil => simp [insertKV, lookupKey, Ne.symm h]
  | cons p rest ih =>
    by_cases hp : p.1 = k
    · simp [insertKV, hp, lookupKey, Ne.symm h]
    · simp [insertKV, hp, lookupKey, ih]

/-- Inversion for a successful `calculate_gas_breakdown`: the fetched gas
price, the execution cost and the data cost all succeeded, and the breakdown
is assembled from them with base cost 21000 and the creation-cost rule. -/
theorem breakdown_ok_elim {P : Provider} {E : Evm} {tx : Tx} {b : GasBreakdown}
    (h : calculate_gas_breakdown P E tx = .ok b) :
    ∃ cgp ec dc, P.getGasPrice = .ok cgp ∧
      execution_cost_of P E tx cgp = .ok ec ∧
      data_cost_of P tx = .ok dc ∧
      b = { base_cost := 21000, data_cost := dc,
            contract_creation_cost :=
              (if tx.toAddr.isNone then calculate_contract_creation_cost tx.data else 0),
            execution_cost := ec } := by
  unfold calculate_gas_breakdown at h
  split at h
  · exact absurd h (by simp)
  next cgp hgp =>
    split at h
    · exact absurd h (by simp)
    next ec hec =>
      split at h
      · exact absurd h (by simp)
      next dc hdc =>
        simp only [Except.ok.injEq] at h
        exact ⟨cgp, ec, dc, hgp, hec, hdc, h.symm⟩

/-- Inversion for a successful `estimate_gas`. -/
theorem estimate_ok_elim {P : Provider} {E : Evm} {tx : Tx} {est : GasEstimate}
    (h : estimate_gas P E tx = .ok est) :
    ∃ b gp, calculate_gas_breakdown P E tx = .ok b ∧ P.getGasPrice = .ok gp ∧
      est = { estimated_gas := b.base_cost + b.contract_creation_cost + b.execution_cost,
              gas_price := gp,
              total_cost_wei :=
                (b.base_cost + b.contract_creation_cost + b.execution_cost) *
                  tx.gas_price.getD gp,
              breakdown := b } := by
  unfold estimate_gas at h
  split at h
  · exact absurd h (by simp)
  next b hb =>
    split at h
    · exact absurd h (by simp)
    next gp hgp =>
      simp only [Except.ok.injEq] at h
      exact ⟨b, gp, hb, hgp, h.symm⟩

/-- The execution-cost branch when `to`, `data` and `from` are present, the
fetched code is non-empty and the storage pre-fetch succeeds: one EVM run
over the seeded DB decides it. -/
theorem execution_cost_of_call {P : Provider} {E : Evm} {tx : Tx}
    {caller to_ : Address} {calldata : Bytes} {cgp : Nat} {db : CacheDB}
    (hf : tx.fromAddr = some caller) (ht : tx.toAddr = some to_)
    (hd : tx.data = some calldata)
    (hcode : (exceptGetD (P.getCodeAt to_) []).isEmpty = false)
    (hdb : initStorage P to_
        (seedAccounts P tx caller to_ (exceptGetD (P.getCodeAt to_) [])) = .ok db) :
    execution_cost_of P E tx cgp =
      .ok (match E db (mkTxEnv caller to_ calldata tx cgp) with
           | .ok r => r.gasUsed + 2300
           | .error _ => 30000) := by
  unfold execution_cost_of
  rw [ht, hd, hf]
  simp only [hcode, Bool.false_eq_true, if_false, hdb]
  cases E db (mkTxEnv caller to_ calldata tx cgp) <;> rfl

/-- The execution-cost branch is 0 when `to` or `data` is absent. -/
theorem execution_cost_of_absent {P : Provider} {E : Evm} {tx : Tx} {cgp : Nat}
    (h : tx.toAddr = none ∨ tx.data = none) :
    execution_cost_of P E tx cgp = .ok 0 := by
  unfold execution_cost_of
  rcases h with h | h
  · rw [h]
  · rw [h]; cases tx.toAddr <;> rfl

/-! ## Claim C1 -/

/-- C1, corrected. In `estimate_gas` the reported `estimated_gas` is
`base_cost + contract_creation_cost + execution_cost`: the breakdown's
`data_cost` — ∑ over calldata bytes of (4 if zero else 16), charged only
when `to` is a contract — is reported in the breakdown but not added into
the sum. -/
theorem c1_sum_amended :
    ∀ (P : Provider) (E : Evm) (tx : Tx) (est : GasEstimate),
      estimate_gas P E tx = .ok est →
      est.estimated_gas =
          est.breakdown.base_cost + est.breakdown.contract_creation_cost +
            est.breakdown.execution_cost ∧
      ∀ (d : Bytes) (ic : Bool), tx.data = some d →
        is_contract P tx.toAddr = .ok ic →
        est.breakdown.data_cost = if ic then calculate_calldata_cost d else 0 := by
  intro P E tx est h
  obtain ⟨b, gp, hb, hgp, hest⟩ := estimate_ok_elim h
  subst hest
  refine ⟨rfl, ?_⟩
  intro d ic hd hic
  obtain ⟨cgp, ec, dc, _, _, hdc, hbval⟩ := breakdown_ok_elim hb
  subst hbval
  unfold data_cost_of at hdc
  rw [hd, hic] at hdc
  simp only [Except.ok.injEq] at hdc
  simpa using hdc.symm

/-- Witness for C1 at `P0`, `E0`, `tx0`: the estimate is
23400 = 21000 + 0 + 2400, while the breakdown reports a data cost of 16. -/
theorem c1_sum_witness :
    estimate_gas P0 E0 tx0 =
        .ok { estimated_gas := 23400, gas_price := 7, total_cost_wei := 468000,
              breakdown := { base_cost := 21000, data_cost := 16,
                             contract_creation_cost := 0, execution_cost := 2400 } } ∧
    (23400 : Nat) = 21000 + 0 + 2400 ∧
    (16 : Nat) = calculate_calldata_cost [1] := by
  refine ⟨rfl, ?_⟩
  have h := c1_sum_amended P0 E0 tx0
      { estimated_gas := 23400, gas_price := 7, total_cost_wei := 468000,
        breakdown := { base_cost := 21000, data_cost := 16,
                       contract_creation_cost := 0, execution_cost := 2400 } } rfl
  exact ⟨h.1, h.2 [1] true rfl rfl⟩

/-- Counterexample to C1 as stated: at `P0`, `E0`, `tx0` the calldata is the
single non-zero byte `0x01` sent to a contract, so the claimed four-term sum
is 21000 + 16 + 0 + 2400 = 23416, but the reported `estimated_gas`
is 23400 — `data_cost` is left out. -/
theorem c1_sum_counterexample :
    (estimate_gas P0 E0 tx0).map (fun e => e.estimated_gas) = .ok 23400 ∧
    (estimate_gas P0 E0 tx0).map
        (fun e => e.breakdown.base_cost + e.breakdown.data_cost +
          e.breakdown.contract_creation_cost + e.breakdown.execution_cost) = .ok 23416 ∧
    (23400 : Nat) ≠ 23416 := by
  refine ⟨rfl, rfl, by decide⟩

/-! ## Claim C2 -/

/-- C2, corrected. The driver of `calculate_gas_breakdown` performs a single
EVM pass with no inspector attached: over the pre-seeded backend (caller
account, callee code, storage slots 0..256) the execution cost is decided by
exactly one invocation of the EVM at the seeded DB and environment —
`gas_used + 2_300` on success, `30_000` on failure — and two EVMs agreeing
on that one invocation yield the same cost; there is no fixpoint iteration
and no re-run. -/
theorem c2_single_pass_amended :
    ∀ (P : Provider) (tx : Tx) (caller to_ : Address) (calldata : Bytes)
      (cgp : Nat) (db : CacheDB) (E E' : Evm),
      tx.fromAddr = some caller → tx.toAddr = some to_ → tx.data = some calldata →
      (exceptGetD (P.getCodeAt to_) []).isEmpty = false →
      initStorage P to_
          (seedAccounts P tx caller to_ (exceptGetD (P.getCodeAt to_) [])) = .ok db →
      (execution_cost_of P E tx cgp =
          .ok (match E db (mkTxEnv caller to_ calldata tx cgp) with
               | .ok r => r.gasUsed + 2300
               | .error _ => 30000)) ∧
      (E db (mkTxEnv caller to_ calldata tx cgp) =
          E' db (mkTxEnv caller to_ calldata tx cgp) →
        execution_cost_of P E tx cgp = execution_cost_of P E' tx cgp) := by
  intro P tx caller to_ calldata cgp db E E' hf ht hd hcode hdb
  refine ⟨execution_cost_of_call hf ht hd hcode hdb, ?_⟩
  intro hEE
  rw [execution_cost_of_call hf ht hd hcode hdb,
    execution_cost_of_call hf ht hd hcode hdb, hEE]

/-- Witness for C2 at `P0`, `E0`, `tx0`: the storage pre-fetch succeeds with
`db256` and the single pass yields 100 + 2300 = 2400. -/
theorem c2_single_pass_witness :
    initStorage P0 20 (seedAccounts P0 tx0 10 20 [1]) = .ok db256 ∧
    execution_cost_of P0 E0 tx0 7 = .ok 2400 := by
  refine ⟨rfl, ?_⟩
  exact (c2_single_pass_amended P0 tx0 10 20 [1] 7 db256 E0 E0
    rfl rfl rfl rfl rfl).1

/-- Counterexample to C2 as stated: with every pass using 100 gas and the
inspector observing no new accesses (`O0` matches `E0`), the spec's §4.4
driver returns the final-pass figure 100, but the code's execution cost for
the same behaviour is 2400 — the code runs once, attaches no inspector, and
does not return the final-pass gas figure. -/
theorem c2_fixpoint_counterexample :
    spec_fixpoint_loop O0 1 [10, 20] [] = some 100 ∧
    (calculate_gas_breakdown P0 E0 tx0).map (fun b => b.execution_cost) = .ok 2400 ∧
    (2400 : Nat) ≠ 100 := by
  refine ⟨rfl, rfl, by decide⟩

/-! ## Claim C3 -/

/-- C3, corrected. On an SLOAD step the slot is peeked from the top of the
interpreter stack and attributed to the top (last) entry of the call stack,
but `storage_accesses` is a map keyed by address holding one slot per
address: the binding `address ↦ slot` is inserted — overwriting any earlier
slot recorded for that address in the pass — if and only if the address does
not occur as a key of the archive map (the archived slot value is never
compared). -/
theorem c3_sload_amended :
    ∀ (t : Tracer) (addr : Address) (slot : Slot) (rest : List Slot),
      t.address_stack.getLast? = some addr →
      (hmapContainsKey t.storage_access_archive addr = true →
        t.step SLOAD (slot :: rest) = t) ∧
      (hmapContainsKey t.storage_access_archive addr = false →
        lookupKey (t.step SLOAD (slot :: rest)).storage_accesses addr = some slot ∧
        ∀ a, a ≠ addr →
          lookupKey (t.step SLOAD (slot :: rest)).storage_accesses a =
            lookupKey t.storage_accesses a) := by
  intro t addr slot rest htop
  constructor
  · intro harch
    simp [Tracer.step, htop, harch]
  · intro harch
    refine ⟨?_, ?_⟩
    · simp [Tracer.step, htop, harch, lookupKey_insertKV_self]
    · intro a ha
      simp [Tracer.step, htop, harch, lookupKey_insertKV_ne _ _ _ _ ha]

/-- Witness for C3: after entering address 1, an SLOAD of slot 7 with an
empty archive records the binding `1 ↦ 7`. -/
theorem c3_sload_witness :
    hmapContainsKey (Tracer.call Tracer.new 1).storage_access_archive 1 = false ∧
    lookupKey ((Tracer.call Tracer.new 1).step SLOAD [7]).storage_accesses 1 = some 7 := by
  refine ⟨by decide, ?_⟩
  exact ((c3_sload_amended (Tracer.call Tracer.new 1) 1 7 [] (by decide)).2
    (by decide)).1

/-- Counterexample to C3 as stated: reading the two distinct slots 7 and 9
of address 1 in one pass leaves only the single binding `(1, 9)` — the pair
`(1, 7)` is overwritten, not recorded separately; and after archiving, the
pair `(1, 5)` is absent from the archive yet the SLOAD of slot 5 records
nothing, because the archive already has address 1 as a key. -/
theorem c3_sload_counterexample :
    (((Tracer.call Tracer.new 1).step SLOAD [7]).step SLOAD [9]).storage_accesses
        = [(1, 9)] ∧
    ((1, 7) ∉ (((Tracer.call Tracer.new 1).step SLOAD [7]).step SLOAD [9]).storage_accesses) ∧
    ((1, 5) ∉ ((((Tracer.call Tracer.new 1).step SLOAD [7]).step SLOAD [9]).reset_state).storage_access_archive) ∧
    (((((Tracer.call Tracer.new 1).step SLOAD [7]).step SLOAD [9]).reset_state).step
        SLOAD [5]).storage_accesses = [] := by
  decide

/-! ## Claim C4 -/

/-- C4, corrected. Whenever the fetched callee code is empty — including
when the `eth_getCode` fetch fails, since its error defaults to empty
bytes — `calculate_gas_breakdown` panics on
`assert!(!contract_code.is_empty())`, for precompile and non-precompile
callees alike; no `HydrationFatal` error kind exists, and the precompile
range is never consulted. -/
theorem c4_empty_code_amended :
    ∀ (P : Provider) (E : Evm) (tx : Tx) (caller to_ : Address)
      (calldata : Bytes) (cgp : Nat),
      tx.fromAddr = some caller → tx.toAddr = some to_ → tx.data = some calldata →
      P.getGasPrice = .ok cgp →
      exceptGetD (P.getCodeAt to_) [] = [] →
      calculate_gas_breakdown P E tx = .error EstError.panicked := by
  intro P E tx caller to_ calldata cgp hf ht hd hgp hcode
  have hec : execution_cost_of P E tx cgp = .error EstError.panicked := by
    unfold execution_cost_of
    rw [ht, hd, hf]
    simp only [hcode, List.isEmpty_nil, if_true]
  unfold calculate_gas_breakdown
  simp only [hgp, hec]

/-- Witness for C4 at the non-precompile callee 999 with empty code: the
request dies in a panic. -/
theorem c4_empty_code_witness :
    exceptGetD (Pempty.getCodeAt 999) [] = [] ∧
    calculate_gas_breakdown Pempty E0 { tx0 with toAddr := some 999 } =
      .error EstError.panicked := by
  refine ⟨rfl, ?_⟩
  exact c4_empty_code_amended Pempty E0 { tx0 with toAddr := some 999 }
    10 999 [1] 7 rfl rfl rfl rfl rfl

/-- Counterexample to C4 as stated: address 1 is a precompile (upper 19
bytes zero, last byte in 1..=9), yet with empty fetched code the simulation
does not proceed to any gas number — it panics; and for the non-precompile
999 the failure is the same panic, not a reported `HydrationFatal` error
(`EstError` has no such constructor to report). -/
theorem c4_empty_code_counterexample :
    is_precompile 1 = true ∧
    calculate_gas_breakdown Pempty E0 { tx0 with toAddr := some 1 } =
      .error EstError.panicked ∧
    is_precompile 999 = false ∧
    calculate_gas_breakdown Pempty E0 { tx0 with toAddr := some 999 } =
      .error EstError.panicked := by
  refine ⟨rfl, rfl, rfl, rfl⟩

/-! ## Claim C5 -/

/-- C5, corrected. The breakdown's `execution_cost` equals
`gas_used + 2_300` (not `gas_used`) when the EVM run succeeds, is the
substituted default `30_000` when the run fails with a transition error, and
is zero when `to` or `data` is absent from the transaction. -/
theorem c5_execution_cost_amended :
    ∀ (P : Provider) (E : Evm) (tx : Tx),
      ((tx.toAddr = none ∨ tx.data = none) →
        ∀ b, calculate_gas_breakdown P E tx = .ok b → b.execution_cost = 0) ∧
      (∀ (caller to_ : Address) (calldata : Bytes) (cgp : Nat) (db : CacheDB),
        tx.fromAddr = some caller → tx.toAddr = some to_ → tx.data = some calldata →
        P.getGasPrice = .ok cgp →
        (exceptGetD (P.getCodeAt to_) []).isEmpty = false →
        initStorage P to_
            (seedAccounts P tx caller to_ (exceptGetD (P.getCodeAt to_) [])) = .ok db →
        ∀ b, calculate_gas_breakdown P E tx = .ok b →
          (∀ r, E db (mkTxEnv caller to_ calldata tx cgp) = .ok r →
            b.execution_cost = r.gasUsed + 2300) ∧
          (∀ e, E db (mkTxEnv caller to_ calldata tx cgp) = .error e →
            b.execution_cost = 30000)) := by
  intro P E tx
  constructor
  · intro habs b hb
    obtain ⟨cgp, ec, dc, hgp, hec, hdc, hbval⟩ := breakdown_ok_elim hb
    rw [execution_cost_of_absent habs] at hec
    simp only [Except.ok.injEq] at hec
    subst hbval
    exact hec.symm
  · intro caller to_ calldata cgp db hf ht hd hgp hcode hdb b hb
    obtain ⟨cgp', ec, dc, hgp', hec, hdc, hbval⟩ := breakdown_ok_elim hb
    rw [hgp] at hgp'
    simp only [Except.ok.injEq] at hgp'
    subst hgp'
    rw [execution_cost_of_call hf ht hd hcode hdb] at hec
    subst hbval
    constructor
    · intro r hr
      rw [hr] at hec
      simp only [Except.ok.injEq] at hec
      exact hec.symm
    · intro e he
      rw [he] at hec
      simp only [Except.ok.injEq] at hec
      exact hec.symm

/-- Witness for C5 at `P0`, `E0`, `tx0`: the run succeeds with
`gas_used = 100` and the breakdown carries 100 + 2300 = 2400. -/
theorem c5_execution_cost_witness :
    E0 db256 (mkTxEnv 10 20 [1] tx0 7) = .ok { gasUsed := 100 } ∧
    calculate_gas_breakdown P0 E0 tx0 =
      .ok { base_cost := 21000, data_cost := 16,
            contract_creation_cost := 0, execution_cost := 2400 } ∧
    (2400 : Nat) = 100 + 2300 := by
  refine ⟨rfl, rfl, ?_⟩
  exact ((c5_execution_cost_amended P0 E0 tx0).2 10 20 [1] 7 db256
      rfl rfl rfl rfl rfl rfl
      { base_cost := 21000, data_cost := 16,
        contract_creation_cost := 0, execution_cost := 2400 } rfl).1
    { gasUsed := 100 } rfl

/-- Counterexample to C5 as stated: `E0` reports `gas_used = 100` for every
run, yet the successful run's execution cost is 2400, not 100. -/
theorem c5_execution_cost_counterexample :
    (calculate_gas_breakdown P0 E0 tx0).map (fun b => b.execution_cost) = .ok 2400 ∧
    (calculate_gas_breakdown P0 E0 tx0).map (fun b => b.execution_cost) ≠ .ok 100 := by
  have h1 : (calculate_gas_breakdown P0 E0 tx0).map (fun b => b.execution_cost)
      = .ok 2400 := rfl
  refine ⟨h1, ?_⟩
  rw [h1]
  intro h
  exact absurd (Except.ok.inj h) (by decide)

/-! ## Claim C6 -/

/-- C6, corrected. The nonce placed in the EVM transaction environment is
the input transaction's nonce when supplied and the constant 1 otherwise;
the backend-seeded caller nonce (`tx.nonce` falling back to the fetched
transaction count) is never read back into the environment — `mkTxEnv` does
not even consult the provider or backend. -/
theorem c6_env_nonce_amended :
    ∀ (P : Provider) (tx : Tx) (caller to_ : Address) (calldata : Bytes)
      (cgp : Nat),
      (mkTxEnv caller to_ calldata tx cgp).nonce = tx.nonce.getD 1 ∧
      (tx.nonce = none → (mkTxEnv caller to_ calldata tx cgp).nonce = 1) ∧
      (∀ n, tx.nonce = some n → (mkTxEnv caller to_ calldata tx cgp).nonce = n) ∧
      (mkCallerInfo P tx caller).nonce = tx.nonce.getD (fetchedNonce P caller) := by
  intro P tx caller to_ calldata cgp
  refine ⟨rfl, ?_, ?_, rfl⟩
  · intro h; rw [mkTxEnv, h]; rfl
  · intro n h; rw [mkTxEnv, h]; rfl

/-- Witness for C6 at `txN` (no supplied nonce): the environment nonce is
the constant 1 even though the backend seeded the fetched count 3. -/
theorem c6_env_nonce_witness :
    txN.nonce = none ∧
    (mkTxEnv 10 20 [1] txN 7).nonce = 1 ∧
    (mkCallerInfo P0 txN 10).nonce = 3 := by
  refine ⟨rfl, ?_, ?_⟩
  · exact (c6_env_nonce_amended P0 txN 10 20 [1] 7).2.1 rfl
  · exact (c6_env_nonce_amended P0 txN 10 20 [1] 7).2.2.2

/-- Counterexample to C6 as stated: `E1` echoes the environment nonce as its
gas figure. With no nonce in the input and the backend having read the
transaction count 3 after hydration, the claim predicts an execution cost of
3 + 2300 = 2303, but the observed cost is 1 + 2300 = 2301: the environment
carried the constant 1, not the backend's nonce. -/
theorem c6_env_nonce_counterexample :
    fetchedNonce P0 10 = 3 ∧
    (calculate_gas_breakdown P0 E1 txN).map (fun b => b.execution_cost) = .ok 2301 ∧
    (2301 : Nat) ≠ 3 + 2300 := by
  refine ⟨rfl, rfl, by decide⟩

/-! ## Claim C7 -/

/-- C7, corrected. `base_cost` is the unconditional constant 21_000:
`calculate_gas_breakdown` never reads `chain_id`, and no devnet exception
for chain 31337 with a contract target exists. -/
theorem c7_base_cost_amended :
    ∀ (P : Provider) (E : Evm) (tx : Tx) (b : GasBreakdown),
      calculate_gas_breakdown P E tx = .ok b → b.base_cost = 21000 := by
  intro P E tx b hb
  obtain ⟨cgp, ec, dc, _, _, _, hbval⟩ := breakdown_ok_elim hb
  subst hbval
  rfl

/-- Witness for C7 at `tx31337` (chain id 31337, contract target). -/
theorem c7_base_cost_witness :
    calculate_gas_breakdown P0 E0 tx31337 =
      .ok { base_cost := 21000, data_cost := 16,
            contract_creation_cost := 0, execution_cost := 2400 } ∧
    (21000 : Nat) = 21000 := by
  refine ⟨rfl, ?_⟩
  exact c7_base_cost_amended P0 E0 tx31337
    { base_cost := 21000, data_cost := 16,
      contract_creation_cost := 0, execution_cost := 2400 } rfl

/-- Counterexample to C7 as stated: `tx31337` has chain id 31337 and its
target 20 is a contract under `P0`, yet the base cost is 21000, not the
claimed 0. -/
theorem c7_base_cost_counterexample :
    tx31337.chain_id = some 31337 ∧
    is_contract P0 tx31337.toAddr = .ok true ∧
    (calculate_gas_breakdown P0 E0 tx31337).map (fun b => b.base_cost) = .ok 21000 ∧
    (21000 : Nat) ≠ 0 := by
  refine ⟨rfl, rfl, rfl, by decide⟩

/-! ## Claim C8 -/

/-- `P` with its balance and transaction-count queries replaced by their
always-succeeding fallback-resolved values. -/
def sanitizeFetches (P : Provider) : Provider :=
  { P with
    getBalance := fun a => .ok (callerBalance P a)
    getTransactionCount := fun a => .ok (fetchedNonce P a) }

/-- C8, confirmed. A failed balance fetch seeds the caller with
1000·10¹⁸ wei; a failed transaction-count fetch makes the fetched nonce 0;
and the estimate is exactly what it would be had both queries succeeded with
those fallback values — neither failure can fail the request. -/
theorem c8_fetch_fallbacks :
    ∀ P : Provider,
      (∀ (caller : Address) (e : RpcFailure),
        P.getBalance caller = .error e → callerBalance P caller = 1000 * 10 ^ 18) ∧
      (∀ (caller : Address) (e : RpcFailure),
        P.getTransactionCount caller = .error e → fetchedNonce P caller = 0) ∧
      (∀ (E : Evm) (tx : Tx),
        estimate_gas (sanitizeFetches P) E tx = estimate_gas P E tx) := by
  intro P
  refine ⟨?_, ?_, ?_⟩
  · intro caller e h
    simp only [callerBalance, exceptGetD, h]
    norm_num
  · intro caller e h
    simp only [fetchedNonce, exceptGetD, h]
  · intro E tx
    rfl

/-- Witness for C8 at a node whose balance query dies in transport and whose
transaction-count query returns a protocol error: the fallbacks apply and
the estimate is unchanged. -/
theorem c8_fetch_fallbacks_witness :
    callerBalance
        { P0 with getBalance := fun _ => .error RpcFailure.transport,
                  getTransactionCount := fun _ => .error RpcFailure.rpc } 10
      = 1000 * 10 ^ 18 ∧
    fetchedNonce
        { P0 with getBalance := fun _ => .error RpcFailure.transport,
                  getTransactionCount := fun _ => .error RpcFailure.rpc } 10
      = 0 ∧
    estimate_gas
        (sanitizeFetches
          { P0 with getBalance := fun _ => .error RpcFailure.transport,
                    getTransactionCount := fun _ => .error RpcFailure.rpc }) E0 txN
      = estimate_gas
          { P0 with getBalance := fun _ => .error RpcFailure.transport,
                    getTransactionCount := fun _ => .error RpcFailure.rpc } E0 txN := by
  refine ⟨?_, ?_, ?_⟩
  · exact (c8_fetch_fallbacks _).1 10 RpcFailure.transport rfl
  · exact (c8_fetch_fallbacks _).2.1 10 RpcFailure.rpc rfl
  · exact (c8_fetch_fallbacks _).2.2 E0 txN

/-! ## Claim C9 -/

/-- C9, confirmed. `reset_state` (the inspector's archive-and-reset) is
idempotent: the second call extends the archives with the now-empty current
sets and clears the already-empty current sets, changing nothing. -/
theorem c9_reset_state_idempotent :
    ∀ t : Tracer, (t.reset_state).reset_state = t.reset_state := by
  intro t
  rfl

/-! ## Claim C10 -/

/-- C10, corrected. The returned `gas_price` field is always the freshly
fetched node gas price — even when the transaction supplies its own — and
`total_cost_wei` is `estimated_gas × (tx.gas_price if present, else the
fetched price)`; but the supplied gas price does not influence only
`total_cost_wei`: it is also placed in the EVM transaction environment
(`mkTxEnv`), through which it can change `execution_cost` and so
`estimated_gas` itself. -/
theorem c10_gas_price_amended :
    ∀ (P : Provider) (E : Evm) (tx : Tx) (est : GasEstimate) (gp : Nat),
      P.getGasPrice = .ok gp → estimate_gas P E tx = .ok est →
      est.gas_price = gp ∧
      est.total_cost_wei = est.estimated_gas * tx.gas_price.getD gp ∧
      (∀ (caller to_ : Address) (calldata : Bytes) (cgp : Nat),
        (mkTxEnv caller to_ calldata tx cgp).gasPrice = tx.gas_price.getD cgp) := by
  intro P E tx est gp hgp h
  obtain ⟨b, gp', hb, hgp', hest⟩ := estimate_ok_elim h
  rw [hgp] at hgp'
  simp only [Except.ok.injEq] at hgp'
  subst hgp'
  subst hest
  exact ⟨rfl, rfl, fun _ _ _ _ => rfl⟩

/-- Witness for C10 at `P0`, `E0`, `tx0`: the returned `gas_price` is the
fetched 7 although the transaction supplied 20, and the total is
23400 · 20 = 468000. -/
theorem c10_gas_price_witness :
    tx0.gas_price = some 20 ∧
    estimate_gas P0 E0 tx0 =
      .ok { estimated_gas := 23400, gas_price := 7, total_cost_wei := 468000,
            breakdown := { base_cost := 21000, data_cost := 16,
                           contract_creation_cost := 0, execution_cost := 2400 } } ∧
    (7 : Nat) = 7 ∧ (468000 : Nat) = 23400 * 20 := by
  refine ⟨rfl, rfl, ?_, ?_⟩
  · exact (c10_gas_price_amended P0 E0 tx0
      { estimated_gas := 23400, gas_price := 7, total_cost_wei := 468000,
        breakdown := { base_cost := 21000, data_cost := 16,
                       contract_creation_cost := 0, execution_cost := 2400 } }
      7 rfl rfl).1
  · exact (c10_gas_price_amended P0 E0 tx0
      { estimated_gas := 23400, gas_price := 7, total_cost_wei := 468000,
        breakdown := { base_cost := 21000, data_cost := 16,
                       contract_creation_cost := 0, execution_cost := 2400 } }
      7 rfl rfl).2.1

/-- Counterexample to C10 as stated: `txB` differs from `tx0` only in its
supplied gas price (40 instead of 20), and `E2` is an EVM whose gas figure
depends on the environment's gas price — as revm's does through the up-front
balance check. The two estimates differ in `estimated_gas` (23320 vs 23340),
so the supplied gas price influenced more than `total_cost_wei`. -/
theorem c10_gas_price_counterexample :
    txB = { tx0 with gas_price := some 40 } ∧
    (estimate_gas P0 E2 tx0).map (fun e => e.estimated_gas) = .ok 23320 ∧
    (estimate_gas P0 E2 txB).map (fun e => e.estimated_gas) = .ok 23340 ∧
    (23320 : Nat) ≠ 23340 := by
  refine ⟨rfl, rfl, rfl, by decide⟩

end GasEst
